import Mathlib

/-!
Verification development for the score-atelier client application.
The definitions below are a shallow embedding of the TypeScript source:
the `AppData` payload and the hooks in `src/hooks/use-privacy-api-simple.ts`,
the API client error path in the privacy-api client module, and the two
calculator pages (`PermissionsChecker.tsx` and the `SimplePrivacyChecker`
component). JavaScript numbers are modelled as `Int` (every value the
claims touch is integral); JavaScript string truthiness is modelled as
non-emptiness; objects used as string-keyed records are modelled as
association lists in insertion order.
-/

namespace ScoreAtelier

/-- JavaScript `String.prototype.trim`: drop whitespace from both ends.
Defined over the character list so that it evaluates by `decide`. -/
def jsTrim (s : String) : String :=
  ⟨((s.data.dropWhile Char.isWhitespace).reverse.dropWhile Char.isWhitespace).reverse⟩

/-- The `AppData` request payload (interface `AppData` in the API client). -/
structure AppData where
  app_name : String
  category : String
  free : Bool
  has_ads : Bool
  has_iap : Bool
  is_game : Bool
  is_social : Bool
  perm_location : Int
  perm_camera : Int
  perm_microphone : Int
  perm_contacts : Int
  perm_phone : Int
  perm_sms : Int
  perm_storage : Int
  perm_calendar : Int
  perm_network : Int
  perm_device_info : Int
  perm_accounts : Int
  perm_system : Int
  perm_other : Int
  deriving Repr, DecidableEq

/-- The thirteen `perm_*` fields of `AppData`, as an enumeration. -/
inductive PermField where
  | location | camera | microphone | contacts | phone | sms | storage
  | calendar | network | device_info | accounts | system | other
  deriving Repr, DecidableEq

/-- Read a permission field of an `AppData` (the `formData[field]` access). -/
def permGet (d : AppData) : PermField → Int
  | .location => d.perm_location
  | .camera => d.perm_camera
  | .microphone => d.perm_microphone
  | .contacts => d.perm_contacts
  | .phone => d.perm_phone
  | .sms => d.perm_sms
  | .storage => d.perm_storage
  | .calendar => d.perm_calendar
  | .network => d.perm_network
  | .device_info => d.perm_device_info
  | .accounts => d.perm_accounts
  | .system => d.perm_system
  | .other => d.perm_other

/-- Overwrite a permission field of an `AppData` (the `updateField` spread). -/
def permSet (d : AppData) : PermField → Int → AppData
  | .location, v => { d with perm_location := v }
  | .camera, v => { d with perm_camera := v }
  | .microphone, v => { d with perm_microphone := v }
  | .contacts, v => { d with perm_contacts := v }
  | .phone, v => { d with perm_phone := v }
  | .sms, v => { d with perm_sms := v }
  | .storage, v => { d with perm_storage := v }
  | .calendar, v => { d with perm_calendar := v }
  | .network, v => { d with perm_network := v }
  | .device_info, v => { d with perm_device_info := v }
  | .accounts, v => { d with perm_accounts := v }
  | .system, v => { d with perm_system := v }
  | .other, v => { d with perm_other := v }

/-- The string key of a permission field, as it appears in the source. -/
def fieldKey : PermField → String
  | .location => "perm_location"
  | .camera => "perm_camera"
  | .microphone => "perm_microphone"
  | .contacts => "perm_contacts"
  | .phone => "perm_phone"
  | .sms => "perm_sms"
  | .storage => "perm_storage"
  | .calendar => "perm_calendar"
  | .network => "perm_network"
  | .device_info => "perm_device_info"
  | .accounts => "perm_accounts"
  | .system => "perm_system"
  | .other => "perm_other"

/-- The initial `formData` built by `useAppForm` with no `initialData`
(lines 124-146 of `use-privacy-api-simple.ts`). -/
def initialFormData : AppData :=
  { app_name := ""
    category := ""
    free := true
    has_ads := false
    has_iap := false
    is_game := false
    is_social := false
    perm_location := 0
    perm_camera := 0
    perm_microphone := 0
    perm_contacts := 0
    perm_phone := 0
    perm_sms := 0
    perm_storage := 0
    perm_calendar := 0
    perm_network := 1
    perm_device_info := 0
    perm_accounts := 0
    perm_system := 0
    perm_other := 0 }

/-- The `newErrors` record computed by `useAppForm.validateForm`, as an
association list in the insertion order of the source: `app_name`,
`category`, the nine [0,10]-range fields in the order of the
`permissionFields` array, the three [0,5] fields, then `perm_other`.
The two `forEach` loops over literal arrays are unrolled. -/
def validateFormErrors (d : AppData) : List (String × String) :=
  (if jsTrim d.app_name = "" then [("app_name", "App name is required")] else []) ++
  (if d.category = "" then [("category", "App category is required")] else []) ++
  (if d.perm_location < 0 ∨ d.perm_location > 10 then
    [("perm_location", "Value must be between 0 and 10")] else []) ++
  (if d.perm_contacts < 0 ∨ d.perm_contacts > 10 then
    [("perm_contacts", "Value must be between 0 and 10")] else []) ++
  (if d.perm_phone < 0 ∨ d.perm_phone > 10 then
    [("perm_phone", "Value must be between 0 and 10")] else []) ++
  (if d.perm_sms < 0 ∨ d.perm_sms > 10 then
    [("perm_sms", "Value must be between 0 and 10")] else []) ++
  (if d.perm_storage < 0 ∨ d.perm_storage > 10 then
    [("perm_storage", "Value must be between 0 and 10")] else []) ++
  (if d.perm_calendar < 0 ∨ d.perm_calendar > 10 then
    [("perm_calendar", "Value must be between 0 and 10")] else []) ++
  (if d.perm_network < 0 ∨ d.perm_network > 10 then
    [("perm_network", "Value must be between 0 and 10")] else []) ++
  (if d.perm_device_info < 0 ∨ d.perm_device_info > 10 then
    [("perm_device_info", "Value must be between 0 and 10")] else []) ++
  (if d.perm_system < 0 ∨ d.perm_system > 10 then
    [("perm_system", "Value must be between 0 and 10")] else []) ++
  (if d.perm_camera < 0 ∨ d.perm_camera > 5 then
    [("perm_camera", "Value must be between 0 and 5")] else []) ++
  (if d.perm_microphone < 0 ∨ d.perm_microphone > 5 then
    [("perm_microphone", "Value must be between 0 and 5")] else []) ++
  (if d.perm_accounts < 0 ∨ d.perm_accounts > 5 then
    [("perm_accounts", "Value must be between 0 and 5")] else []) ++
  (if d.perm_other < 0 ∨ d.perm_other > 50 then
    [("perm_other", "Value must be between 0 and 50")] else [])

/-- The boolean returned by `validateForm`
(`Object.keys(newErrors).length === 0`). -/
def validateForm (d : AppData) : Bool :=
  validateFormErrors d = []

/-- The derived `isValid` value returned by `useAppForm`. In the source it is
`Object.keys(errors).length === 0 && formData.app_name.trim() && formData.category`,
whose JavaScript value is truthy exactly when the errors record is empty and
both strings are non-empty after the source's coercions. -/
def isValid (errors : List (String × String)) (d : AppData) : Bool :=
  errors.isEmpty && !(jsTrim d.app_name = "") && !(d.category = "")

/-- A concrete fully in-range form used by witnesses: the hook's initial
form data with a name and category filled in. -/
def validBase : AppData :=
  { initialFormData with app_name := "MyApp", category := "Social" }

/-- The `PredictionResult` response (interface `PredictionResult` in the API
client). JSON numbers are modelled as `Int`; `level_probabilities` as an
association list. -/
structure PredictionResult where
  app_name : String
  privacy_level : String
  privacy_score : Int
  confidence : Int
  level_probabilities : List (String × Int)
  risk_assessment : String
  key_risk_factors : List String
  recommendations : List String
  timestamp : String
  deriving Repr, DecidableEq

/-- Model of `usePredictionHistory.addPrediction`:
`setPredictions(prev => [prediction, ...prev.slice(0, 9)])`. -/
def addPrediction (prediction : PredictionResult) (prev : List PredictionResult) :
    List PredictionResult :=
  prediction :: prev.take 9

/-- Model of `usePredictionHistory.clearHistory`: `setPredictions([])`. -/
def clearHistory : List PredictionResult := []

/-- Model of `usePredictionHistory.removePrediction`:
`setPredictions(prev => prev.filter(p => p.timestamp !== timestamp))`. -/
def removePrediction (timestamp : String) (prev : List PredictionResult) :
    List PredictionResult :=
  prev.filter (fun p => p.timestamp ≠ timestamp)

/-- The `models_loaded` record of `ApiHealthResponse`. -/
structure ModelsLoaded where
  classification : Bool
  regression : Bool
  deriving Repr, DecidableEq

/-- The `ApiHealthResponse` interface. -/
structure ApiHealthResponse where
  message : String
  status : String
  models_loaded : ModelsLoaded
  deriving Repr, DecidableEq

/-- The `CategoriesResponse` interface. -/
structure CategoriesResponse where
  categories : List String
  count : Int
  deriving Repr, DecidableEq

/-- The JSON body of a non-success response, as far as `makeRequest` reads
it: an optional `detail` field and an optional `message` field (any other
fields are irrelevant to the client). -/
structure ErrBody where
  detail : Option String
  message : Option String
  deriving Repr, DecidableEq

/-- The `PrivacyApiError` class: message, optional HTTP status, optional details
(the `errorDetails` object). -/
structure PrivacyApiError where
  message : String
  status : Option Nat
  details : Option ErrBody
  deriving Repr, DecidableEq

/-- JavaScript `a || b` on an optional string field: a present, non-empty
string is truthy; an absent or empty one falls through to `b`. -/
def jsOr (a : Option String) (b : String) : String :=
  match a with
  | some s => if s = "" then b else s
  | none => b

/-- The non-success branch of `PrivacyApiClient.makeRequest`
(lines 89-102 of the client): `parsedBody` is the JSON parse of the
response body when it succeeds (`none` models a body that is not parseable
JSON, in which case the code substitutes `{ message: response.statusText }`);
the raised error's message is
`errorDetails.detail || errorDetails.message || "HTTP " + response.status`. -/
def makeRequestError (parsedBody : Option ErrBody) (status : Nat)
    (statusText : String) : PrivacyApiError :=
  let errorDetails : ErrBody :=
    match parsedBody with
    | some b => b
    | none => { detail := none, message := some statusText }
  { message := jsOr errorDetails.detail (jsOr errorDetails.message ("HTTP " ++ toString status))
    status := some status
    details := some errorDetails }

/-- The three state slots every API hook keeps:
`data`, `loading`, `error`. -/
structure HookState (α : Type) where
  data : Option α
  loading : Bool
  error : Option PrivacyApiError
  deriving Repr, DecidableEq

/-- Model of `useApiHealth.checkHealth`, synchronous part before the awaited call:
`setLoading(true); setError(null)` (the stored data is not touched). -/
def checkHealthStart (s : HookState ApiHealthResponse) : HookState ApiHealthResponse :=
  { s with loading := true, error := none }

/-- Model of `useApiHealth.checkHealth`, completion: `setData(result)` on success,
`setError(err)` on failure, and `setLoading(false)` in the `finally`. -/
def checkHealthFinish (s : HookState ApiHealthResponse)
    (outcome : Except PrivacyApiError ApiHealthResponse) : HookState ApiHealthResponse :=
  match outcome with
  | .ok r => { s with data := some r, loading := false }
  | .error e => { s with error := some e, loading := false }

/-- Model of `useCategories.fetchCategories`, synchronous part:
`setLoading(true); setError(null)` (the stored data is not touched). -/
def fetchCategoriesStart (s : HookState CategoriesResponse) : HookState CategoriesResponse :=
  { s with loading := true, error := none }

/-- Model of `useCategories.fetchCategories`, completion. -/
def fetchCategoriesFinish (s : HookState CategoriesResponse)
    (outcome : Except PrivacyApiError CategoriesResponse) : HookState CategoriesResponse :=
  match outcome with
  | .ok r => { s with data := some r, loading := false }
  | .error e => { s with error := some e, loading := false }

/-- Model of `usePrivacyPrediction.predict`, synchronous part:
`setLoading(true); setError(null); setData(null)` — this hook alone also
clears the stored result. -/
def predictStart (s : HookState PredictionResult) : HookState PredictionResult :=
  { s with data := none, loading := true, error := none }

/-- Model of `usePrivacyPrediction.predict`, completion. -/
def predictFinish (s : HookState PredictionResult)
    (outcome : Except PrivacyApiError PredictionResult) : HookState PredictionResult :=
  match outcome with
  | .ok r => { s with data := some r, loading := false }
  | .error e => { s with error := some e, loading := false }

/-- Model of `useDemoPredict.getDemoPredict`, synchronous part:
`setLoading(true); setError(null)` (the stored data is not touched). -/
def getDemoPredictStart (s : HookState PredictionResult) : HookState PredictionResult :=
  { s with loading := true, error := none }

/-- Model of `useDemoPredict.getDemoPredict`, completion. -/
def getDemoPredictFinish (s : HookState PredictionResult)
    (outcome : Except PrivacyApiError PredictionResult) : HookState PredictionResult :=
  match outcome with
  | .ok r => { s with data := some r, loading := false }
  | .error e => { s with error := some e, loading := false }

/-- The `getRiskColor` function as defined inside the `SimplePrivacyChecker` component
(the `switch` is an equivalent first-match chain). -/
def getRiskColorSimple (level : String) : String :=
  if level = "LOW" then "text-green-600 bg-green-100"
  else if level = "MEDIUM" then "text-yellow-600 bg-yellow-100"
  else if level = "HIGH" then "text-orange-600 bg-orange-100"
  else if level = "CRITICAL" then "text-red-600 bg-red-100"
  else "text-gray-600 bg-gray-100"

/-- The `getRiskColor` function as defined inside the `PermissionsChecker` page. -/
def getRiskColorPermissions (level : String) : String :=
  if level = "LOW" then "text-green-600 bg-green-100"
  else if level = "MEDIUM" then "text-yellow-600 bg-yellow-100"
  else if level = "HIGH" then "text-orange-600 bg-orange-100"
  else if level = "CRITICAL" then "text-red-600 bg-red-100"
  else "text-gray-600 bg-gray-100"

/-- The `SimplePrivacyChecker` surface's state the quick actions touch: the
`appInput` field and the prediction hook's stored result the page renders. -/
structure SimpleCheckerState where
  appInput : String
  prediction : Option PredictionResult
  deriving Repr, DecidableEq

/-- The "Check Another App" quick action:
`onClick={() => setAppInput('')}` — it writes only the input. -/
def checkAnotherApp (s : SimpleCheckerState) : SimpleCheckerState :=
  { s with appInput := "" }

/-- A sample stored prediction used by concrete counterexamples. -/
def samplePrediction : PredictionResult :=
  { app_name := "Facebook", privacy_level := "MEDIUM", privacy_score := 42,
    confidence := 0, level_probabilities := [], risk_assessment := "",
    key_risk_factors := [], recommendations := [], timestamp := "t0" }

/-- The `Permission` UI entity of the Permissions Checker page. The React
icon node is modelled by the icon component's name. -/
structure Permission where
  key : String
  name : String
  description : String
  icon : String
  enabled : Bool
  deriving Repr, DecidableEq

/-- A default `Permission` used with `List.getD`. -/
def dummyPermission : Permission :=
  { key := "", name := "", description := "", icon := "", enabled := false }

/-- The seeded permissions list of `PermissionsChecker` (lines 46-59):
twelve toggles, `perm_network` on by default, every other one off. -/
def initialPermissions : List Permission :=
  [{ key := "perm_location", name := "Location Access",
     description := "Access to GPS location and location history",
     icon := "MapPin", enabled := false },
   { key := "perm_camera", name := "Camera Access",
     description := "Take pictures and record videos",
     icon := "Camera", enabled := false },
   { key := "perm_microphone", name := "Microphone Access",
     description := "Record audio and voice commands",
     icon := "Mic", enabled := false },
   { key := "perm_contacts", name := "Contacts Access",
     description := "Read and modify your contacts",
     icon := "Users", enabled := false },
   { key := "perm_phone", name := "Phone Access",
     description := "Make and manage phone calls",
     icon := "Phone", enabled := false },
   { key := "perm_sms", name := "SMS Access",
     description := "Send and receive text messages",
     icon := "MessageSquare", enabled := false },
   { key := "perm_storage", name := "Storage Access",
     description := "Read and write to device storage",
     icon := "HardDrive", enabled := false },
   { key := "perm_calendar", name := "Calendar Access",
     description := "Read and modify calendar events",
     icon := "Calendar", enabled := false },
   { key := "perm_network", name := "Network Access",
     description := "Access internet and network state",
     icon := "Wifi", enabled := true },
   { key := "perm_device_info", name := "Device Info",
     description := "Read device ID and hardware info",
     icon := "Smartphone", enabled := false },
   { key := "perm_accounts", name := "Account Access",
     description := "Access account information",
     icon := "Users", enabled := false },
   { key := "perm_system", name := "System Access",
     description := "Modify system settings",
     icon := "Settings", enabled := false }]

/-- Model of `togglePermission(index)`: flip the `enabled` flag of the entry at
`index`, leaving every other entry as it was. -/
def togglePermission : Nat → List Permission → List Permission
  | _, [] => []
  | 0, p :: ps => { p with enabled := !p.enabled } :: ps
  | n + 1, p :: ps => p :: togglePermission n ps

/-- Model of `permissions.find(p => p.key === k)?.enabled ? 1 : 0` — an absent key
yields `undefined`, hence 0. -/
def permTo01 (ps : List Permission) (k : String) : Int :=
  match ps.find? (fun p => p.key = k) with
  | some p => if p.enabled then 1 else 0
  | none => 0

/-- The `appData` record literal built by `handleCalculateRisk`
(lines 75-96 of `PermissionsChecker.tsx`). -/
def builtAppData (appName category : String) (isFree hasAds hasIAP isGame isSocial : Bool)
    (ps : List Permission) : AppData :=
  { app_name := appName
    category := category
    free := isFree
    has_ads := hasAds
    has_iap := hasIAP
    is_game := isGame
    is_social := isSocial
    perm_location := permTo01 ps "perm_location"
    perm_camera := permTo01 ps "perm_camera"
    perm_microphone := permTo01 ps "perm_microphone"
    perm_contacts := permTo01 ps "perm_contacts"
    perm_phone := permTo01 ps "perm_phone"
    perm_sms := permTo01 ps "perm_sms"
    perm_storage := permTo01 ps "perm_storage"
    perm_calendar := permTo01 ps "perm_calendar"
    perm_network := permTo01 ps "perm_network"
    perm_device_info := permTo01 ps "perm_device_info"
    perm_accounts := permTo01 ps "perm_accounts"
    perm_system := permTo01 ps "perm_system"
    perm_other := 0 }

/-- Model of `handleCalculateRisk`: with an app name that is empty after trimming it
alerts and returns without a request (`none`); otherwise it submits the
built `AppData`. -/
def handleCalculateRisk (appName category : String)
    (isFree hasAds hasIAP isGame isSocial : Bool) (ps : List Permission) :
    Option AppData :=
  if jsTrim appName = "" then none
  else some (builtAppData appName category isFree hasAds hasIAP isGame isSocial ps)

/-- Keyed read of the `perm_*` field named `k` from an `AppData`. -/
def permKeyGet (d : AppData) (k : String) : Int :=
  if k = "perm_location" then d.perm_location
  else if k = "perm_camera" then d.perm_camera
  else if k = "perm_microphone" then d.perm_microphone
  else if k = "perm_contacts" then d.perm_contacts
  else if k = "perm_phone" then d.perm_phone
  else if k = "perm_sms" then d.perm_sms
  else if k = "perm_storage" then d.perm_storage
  else if k = "perm_calendar" then d.perm_calendar
  else if k = "perm_network" then d.perm_network
  else if k = "perm_device_info" then d.perm_device_info
  else if k = "perm_accounts" then d.perm_accounts
  else if k = "perm_system" then d.perm_system
  else 0

/-- The state pair held by `useAppForm`: the form data and the stored
per-field errors record. -/
structure FormState where
  formData : AppData
  errors : List (String × String)
  deriving Repr, DecidableEq

/-- Model of `useAppForm.updateField` restricted to the permission fields: store the
new value and, when a (truthy) error is stored for that field, delete that
error — nothing is re-validated. -/
def updatePermField (st : FormState) (f : PermField) (v : Int) : FormState :=
  { formData := permSet st.formData f v
    errors :=
      match st.errors.lookup (fieldKey f) with
      | some m =>
        if m = "" then st.errors
        else st.errors.filter (fun e => e.1 ≠ fieldKey f)
      | none => st.errors }

/-- Claim C3. For every `AppData` whose nine [0,10]-range permission fields are
in [0,10], whose `perm_camera`, `perm_microphone`, `perm_accounts` are in
[0,5], whose `perm_other` is in [0,50], and whose `app_name` is non-empty
after trimming and `category` non-empty, `validateForm` returns `true` with
an empty errors record, and `isValid` on the stored errors is subsequently
`true`. -/
theorem validateForm_accepts_in_range (d : AppData)
    (hname : jsTrim d.app_name ≠ "")
    (hcat : d.category ≠ "")
    (h1 : 0 ≤ d.perm_location ∧ d.perm_location ≤ 10)
    (h2 : 0 ≤ d.perm_contacts ∧ d.perm_contacts ≤ 10)
    (h3 : 0 ≤ d.perm_phone ∧ d.perm_phone ≤ 10)
    (h4 : 0 ≤ d.perm_sms ∧ d.perm_sms ≤ 10)
    (h5 : 0 ≤ d.perm_storage ∧ d.perm_storage ≤ 10)
    (h6 : 0 ≤ d.perm_calendar ∧ d.perm_calendar ≤ 10)
    (h7 : 0 ≤ d.perm_network ∧ d.perm_network ≤ 10)
    (h8 : 0 ≤ d.perm_device_info ∧ d.perm_device_info ≤ 10)
    (h9 : 0 ≤ d.perm_system ∧ d.perm_system ≤ 10)
    (h10 : 0 ≤ d.perm_camera ∧ d.perm_camera ≤ 5)
    (h11 : 0 ≤ d.perm_microphone ∧ d.perm_microphone ≤ 5)
    (h12 : 0 ≤ d.perm_accounts ∧ d.perm_accounts ≤ 5)
    (h13 : 0 ≤ d.perm_other ∧ d.perm_other ≤ 50) :
    validateFormErrors d = [] ∧ validateForm d = true ∧
      isValid (validateFormErrors d) d = true := by
  have e : validateFormErrors d = [] := by
    unfold validateFormErrors
    rw [if_neg hname, if_neg hcat]
    rw [if_neg (by omega), if_neg (by omega), if_neg (by omega), if_neg (by omega)]
    rw [if_neg (by omega), if_neg (by omega), if_neg (by omega), if_neg (by omega)]
    rw [if_neg (by omega), if_neg (by omega), if_neg (by omega), if_neg (by omega)]
    rw [if_neg (by omega)]
    rfl
  refine ⟨e, ?_, ?_⟩
  · simp [validateForm, e]
  · simp [isValid, e, hname, hcat]

/-- Witness for C3: a concrete in-range form is accepted. -/
theorem validateForm_accepts_in_range_witness :
    validateFormErrors { initialFormData with app_name := "MyApp", category := "Social" } = [] ∧
      validateForm { initialFormData with app_name := "MyApp", category := "Social" } = true ∧
      isValid (validateFormErrors { initialFormData with app_name := "MyApp", category := "Social" })
        { initialFormData with app_name := "MyApp", category := "Social" } = true :=
  validateForm_accepts_in_range _
    (by decide) (by decide) (by decide) (by decide) (by decide) (by decide)
    (by decide) (by decide) (by decide) (by decide) (by decide) (by decide)
    (by decide) (by decide) (by decide)

/-- Claim C4. For a form whose other fields are all in range and whose
`app_name` and `category` are non-empty: setting any single [0,10]-range
permission field to 11 makes `validateForm` report an error for exactly that
field and no other; setting `perm_camera`, `perm_microphone`, or
`perm_accounts` to 6 produces a range error for that field while 5 produces
none; setting `perm_other` to 51 produces a range error while 50 produces
none. -/
theorem validateForm_flags_single_out_of_range (d : AppData)
    (hname : jsTrim d.app_name ≠ "")
    (hcat : d.category ≠ "")
    (h1 : 0 ≤ d.perm_location ∧ d.perm_location ≤ 10)
    (h2 : 0 ≤ d.perm_contacts ∧ d.perm_contacts ≤ 10)
    (h3 : 0 ≤ d.perm_phone ∧ d.perm_phone ≤ 10)
    (h4 : 0 ≤ d.perm_sms ∧ d.perm_sms ≤ 10)
    (h5 : 0 ≤ d.perm_storage ∧ d.perm_storage ≤ 10)
    (h6 : 0 ≤ d.perm_calendar ∧ d.perm_calendar ≤ 10)
    (h7 : 0 ≤ d.perm_network ∧ d.perm_network ≤ 10)
    (h8 : 0 ≤ d.perm_device_info ∧ d.perm_device_info ≤ 10)
    (h9 : 0 ≤ d.perm_system ∧ d.perm_system ≤ 10)
    (h10 : 0 ≤ d.perm_camera ∧ d.perm_camera ≤ 5)
    (h11 : 0 ≤ d.perm_microphone ∧ d.perm_microphone ≤ 5)
    (h12 : 0 ≤ d.perm_accounts ∧ d.perm_accounts ≤ 5)
    (h13 : 0 ≤ d.perm_other ∧ d.perm_other ≤ 50) :
    ((validateFormErrors (permSet d .location 11)).map Prod.fst = ["perm_location"]) ∧
    ((validateFormErrors (permSet d .contacts 11)).map Prod.fst = ["perm_contacts"]) ∧
    ((validateFormErrors (permSet d .phone 11)).map Prod.fst = ["perm_phone"]) ∧
    ((validateFormErrors (permSet d .sms 11)).map Prod.fst = ["perm_sms"]) ∧
    ((validateFormErrors (permSet d .storage 11)).map Prod.fst = ["perm_storage"]) ∧
    ((validateFormErrors (permSet d .calendar 11)).map Prod.fst = ["perm_calendar"]) ∧
    ((validateFormErrors (permSet d .network 11)).map Prod.fst = ["perm_network"]) ∧
    ((validateFormErrors (permSet d .device_info 11)).map Prod.fst = ["perm_device_info"]) ∧
    ((validateFormErrors (permSet d .system 11)).map Prod.fst = ["perm_system"]) ∧
    ((validateFormErrors (permSet d .camera 6)).map Prod.fst = ["perm_camera"]) ∧
    ((validateFormErrors (permSet d .camera 5)).map Prod.fst = []) ∧
    ((validateFormErrors (permSet d .microphone 6)).map Prod.fst = ["perm_microphone"]) ∧
    ((validateFormErrors (permSet d .microphone 5)).map Prod.fst = []) ∧
    ((validateFormErrors (permSet d .accounts 6)).map Prod.fst = ["perm_accounts"]) ∧
    ((validateFormErrors (permSet d .accounts 5)).map Prod.fst = []) ∧
    ((validateFormErrors (permSet d .other 51)).map Prod.fst = ["perm_other"]) ∧
    ((validateFormErrors (permSet d .other 50)).map Prod.fst = []) := by
  have c1 : ¬(d.perm_location < 0 ∨ d.perm_location > 10) := by omega
  have c2 : ¬(d.perm_contacts < 0 ∨ d.perm_contacts > 10) := by omega
  have c3 : ¬(d.perm_phone < 0 ∨ d.perm_phone > 10) := by omega
  have c4 : ¬(d.perm_sms < 0 ∨ d.perm_sms > 10) := by omega
  have c5 : ¬(d.perm_storage < 0 ∨ d.perm_storage > 10) := by omega
  have c6 : ¬(d.perm_calendar < 0 ∨ d.perm_calendar > 10) := by omega
  have c7 : ¬(d.perm_network < 0 ∨ d.perm_network > 10) := by omega
  have c8 : ¬(d.perm_device_info < 0 ∨ d.perm_device_info > 10) := by omega
  have c9 : ¬(d.perm_system < 0 ∨ d.perm_system > 10) := by omega
  have c10 : ¬(d.perm_camera < 0 ∨ d.perm_camera > 5) := by omega
  have c11 : ¬(d.perm_microphone < 0 ∨ d.perm_microphone > 5) := by omega
  have c12 : ¬(d.perm_accounts < 0 ∨ d.perm_accounts > 5) := by omega
  have c13 : ¬(d.perm_other < 0 ∨ d.perm_other > 50) := by omega
  refine ⟨?_, ?_, ?_, ?_, ?_, ?_, ?_, ?_, ?_, ?_, ?_, ?_, ?_, ?_, ?_, ?_, ?_⟩ <;>
    simp [validateFormErrors, permSet, hname, hcat,
      c1, c2, c3, c4, c5, c6, c7, c8, c9, c10, c11, c12, c13]

/-- Witness for C4 at the concrete in-range base form. -/
theorem validateForm_flags_single_out_of_range_witness :
    jsTrim validBase.app_name ≠ "" ∧ validBase.category ≠ "" ∧
      (validateFormErrors (permSet validBase .location 11)).map Prod.fst = ["perm_location"] :=
  ⟨by decide, by decide,
    (validateForm_flags_single_out_of_range validBase
      (by decide) (by decide) (by decide) (by decide) (by decide) (by decide)
      (by decide) (by decide) (by decide) (by decide) (by decide) (by decide)
      (by decide) (by decide) (by decide)).1⟩

/-- Claim C5. The prediction history holds at most 10 entries after every
operation; `addPrediction` prepends the new entry (newest first), and adding
to a history already holding 10 drops exactly the oldest (last) entry,
leaving the 10 most recent. -/
theorem predictionHistory_bounded (p : PredictionResult)
    (l : List PredictionResult) (t : String) (h : l.length ≤ 10) :
    (addPrediction p l).length ≤ 10 ∧
    (removePrediction t l).length ≤ 10 ∧
    clearHistory.length ≤ 10 ∧
    (addPrediction p l).head? = some p ∧
    (l.length = 10 →
      addPrediction p l = p :: l.dropLast ∧ (addPrediction p l).length = 10) := by
  refine ⟨?_, ?_, ?_, rfl, ?_⟩
  · have := List.length_take 9 l
    simp only [addPrediction, List.length_cons, this]
    omega
  · have := List.length_filter_le (fun p => decide (p.timestamp ≠ t)) l
    simpa [removePrediction] using le_trans this h
  · simp [clearHistory]
  · intro h10
    constructor
    · have : l.dropLast = l.take 9 := by
        rw [List.dropLast_eq_take, h10]
      rw [addPrediction, this]
    · simp only [addPrediction, List.length_cons, List.length_take]
      omega

/-- Witness for C5 on a concrete 10-entry history. -/
theorem predictionHistory_bounded_witness :
    ((List.range 10).map (fun i =>
        ({ app_name := "a", privacy_level := "LOW", privacy_score := 0,
           confidence := 0, level_probabilities := [], risk_assessment := "",
           key_risk_factors := [], recommendations := [],
           timestamp := toString i } : PredictionResult))).length ≤ 10 ∧
    (addPrediction
      { app_name := "b", privacy_level := "LOW", privacy_score := 0,
        confidence := 0, level_probabilities := [], risk_assessment := "",
        key_risk_factors := [], recommendations := [], timestamp := "new" }
      ((List.range 10).map (fun i =>
        ({ app_name := "a", privacy_level := "LOW", privacy_score := 0,
           confidence := 0, level_probabilities := [], risk_assessment := "",
           key_risk_factors := [], recommendations := [],
           timestamp := toString i } : PredictionResult)))).length ≤ 10 :=
  ⟨by decide, (predictionHistory_bounded _ _ "0" (by decide)).1⟩

/-- Claim C6, counterexample. The claim says `removePrediction` removes exactly
one entry (the one whose timestamp matches) from every history list; on a
list holding two entries with the same timestamp the source's `filter`
removes both, so the length drops by 2, not 1. -/
theorem removePrediction_not_single_on_duplicates :
    (removePrediction "2024"
      [{ app_name := "a", privacy_level := "LOW", privacy_score := 0,
         confidence := 0, level_probabilities := [], risk_assessment := "",
         key_risk_factors := [], recommendations := [], timestamp := "2024" },
       { app_name := "b", privacy_level := "HIGH", privacy_score := 9,
         confidence := 0, level_probabilities := [], risk_assessment := "",
         key_risk_factors := [], recommendations := [], timestamp := "2024" }]).length = 0 := by
  decide

/-- Claim C6, amended. `removePrediction` removes every entry whose timestamp
equals the given one and no other entry, preserving the remaining entries'
relative order; when exactly one entry carries the timestamp this removes
exactly that one entry. -/
theorem removePrediction_removes_matching (t : String) (l : List PredictionResult) :
    (∀ p, p ∈ removePrediction t l ↔ p ∈ l ∧ p.timestamp ≠ t) ∧
    (removePrediction t l).Sublist l ∧
    (l.countP (fun p => p.timestamp = t) = 1 →
      (removePrediction t l).length + 1 = l.length) := by
  refine ⟨?_, List.filter_sublist l, ?_⟩
  · intro p
    simp [removePrediction]
  · intro hone
    have hsplit :=
      List.length_eq_length_filter_add (l := l) (fun p => decide (p.timestamp = t))
    have he : removePrediction t l =
        l.filter (fun p => ! decide (p.timestamp = t)) := by
      simp [removePrediction]
    have hmatch : (l.filter (fun p => decide (p.timestamp = t))).length = 1 := by
      rw [← List.countP_eq_length_filter]
      exact hone
    rw [he]
    omega

/-- Witness for C6 (amended) on a concrete two-entry history. -/
theorem removePrediction_removes_matching_witness :
    ([{ app_name := "a", privacy_level := "LOW", privacy_score := 0,
        confidence := 0, level_probabilities := [], risk_assessment := "",
        key_risk_factors := [], recommendations := [], timestamp := "t1" },
      { app_name := "b", privacy_level := "HIGH", privacy_score := 9,
        confidence := 0, level_probabilities := [], risk_assessment := "",
        key_risk_factors := [], recommendations := [],
        timestamp := "t2" }] : List PredictionResult).countP
        (fun p => p.timestamp = "t1") = 1 ∧
    (removePrediction "t1"
      [{ app_name := "a", privacy_level := "LOW", privacy_score := 0,
         confidence := 0, level_probabilities := [], risk_assessment := "",
         key_risk_factors := [], recommendations := [], timestamp := "t1" },
       { app_name := "b", privacy_level := "HIGH", privacy_score := 9,
         confidence := 0, level_probabilities := [], risk_assessment := "",
         key_risk_factors := [], recommendations := [],
         timestamp := "t2" }]).length + 1 = 2 :=
  ⟨by decide, (removePrediction_removes_matching "t1" _).2.2 (by decide)⟩

/-- Claim C2, counterexample. The claim says the HTTP status text is the
fallback message when the parsed body has neither `detail` nor `message`;
the code instead uses `"HTTP "` followed by the status code there, so for a
404 with status text `"Not Found"` and body `{}` the message is
`"HTTP 404"`, not `"Not Found"`. -/
theorem makeRequestError_fallback_is_status_code :
    (makeRequestError (some { detail := none, message := none }) 404 "Not Found").message
        = "HTTP 404" ∧
      "HTTP 404" ≠ "Not Found" := by
  constructor
  · rfl
  · decide

/-- Claim C2, amended. On a non-success HTTP response, `makeRequest` raises a
`PrivacyApiError` whose message is the parsed body's `detail` field if
present (and non-empty), else the body's `message` field if present (and
non-empty), else `"HTTP "` followed by the status code; when the body is not
parseable JSON the code substitutes `{ message: statusText }`, so the
HTTP status text becomes the message (when non-empty). The error carries the
HTTP status code as `status` and the (possibly substituted) body object as
`details`. -/
theorem makeRequestError_spec (b : ErrBody) (status : Nat) (stext : String) :
    ((makeRequestError (some b) status stext).status = some status) ∧
    ((makeRequestError (some b) status stext).details = some b) ∧
    (∀ d, b.detail = some d → d ≠ "" →
      (makeRequestError (some b) status stext).message = d) ∧
    (b.detail = none → ∀ m, b.message = some m → m ≠ "" →
      (makeRequestError (some b) status stext).message = m) ∧
    (b.detail = none → b.message = none →
      (makeRequestError (some b) status stext).message = "HTTP " ++ toString status) ∧
    (stext ≠ "" → (makeRequestError none status stext).message = stext) ∧
    ((makeRequestError none status stext).status = some status) ∧
    ((makeRequestError none status stext).details =
      some { detail := none, message := some stext }) := by
  refine ⟨rfl, rfl, ?_, ?_, ?_, ?_, rfl, rfl⟩
  · intro d hd hne
    simp [makeRequestError, jsOr, hd, hne]
  · intro hd m hm hne
    simp [makeRequestError, jsOr, hd, hm, hne]
  · intro hd hm
    simp [makeRequestError, jsOr, hd, hm]
  · intro hne
    simp [makeRequestError, jsOr, hne]

/-- Witness for C2 (amended) at a concrete body and status. -/
theorem makeRequestError_spec_witness :
    ({ detail := some "not found", message := none } : ErrBody).detail = some "not found" ∧
    "not found" ≠ "" ∧
    (makeRequestError (some { detail := some "not found", message := none }) 404
      "Not Found").message = "not found" :=
  ⟨rfl, by decide,
    (makeRequestError_spec { detail := some "not found", message := none } 404
      "Not Found").2.2.1 "not found" rfl (by decide)⟩

/-- Claim C1, counterexample. The claim says every one of the four hooks clears
the previously stored result when its trigger is invoked; `checkHealth`
(like `fetchCategories` and `getDemoPredict`) runs only
`setLoading(true); setError(null)`, so a previously stored health result
survives the trigger. -/
theorem checkHealthStart_keeps_previous_data :
    (checkHealthStart
      { data := some { message := "ok", status := "healthy",
                       models_loaded := { classification := true, regression := true } },
        loading := false,
        error := none }).data ≠ none := by
  decide

/-- Claim C1, amended. Every one of the four hook triggers clears any previous
error and sets the loading flag; only the prediction hook also clears the
previous result (health, categories and demo-predict leave it in place). On
completion every hook sets the result on success or the error on failure,
clears the loading flag, and leaves the third slot untouched — this
completion lifecycle is identical for all four hooks. -/
theorem hooks_lifecycle (sh : HookState ApiHealthResponse)
    (sc : HookState CategoriesResponse) (sp sd : HookState PredictionResult) :
    ((checkHealthStart sh).loading = true ∧ (checkHealthStart sh).error = none ∧
      (checkHealthStart sh).data = sh.data) ∧
    ((fetchCategoriesStart sc).loading = true ∧ (fetchCategoriesStart sc).error = none ∧
      (fetchCategoriesStart sc).data = sc.data) ∧
    ((predictStart sp).loading = true ∧ (predictStart sp).error = none ∧
      (predictStart sp).data = none) ∧
    ((getDemoPredictStart sd).loading = true ∧ (getDemoPredictStart sd).error = none ∧
      (getDemoPredictStart sd).data = sd.data) ∧
    (∀ r, (checkHealthFinish sh (.ok r)).data = some r ∧
      (checkHealthFinish sh (.ok r)).loading = false ∧
      (checkHealthFinish sh (.ok r)).error = sh.error) ∧
    (∀ e, (checkHealthFinish sh (.error e)).error = some e ∧
      (checkHealthFinish sh (.error e)).loading = false ∧
      (checkHealthFinish sh (.error e)).data = sh.data) ∧
    (∀ r, (fetchCategoriesFinish sc (.ok r)).data = some r ∧
      (fetchCategoriesFinish sc (.ok r)).loading = false ∧
      (fetchCategoriesFinish sc (.ok r)).error = sc.error) ∧
    (∀ e, (fetchCategoriesFinish sc (.error e)).error = some e ∧
      (fetchCategoriesFinish sc (.error e)).loading = false ∧
      (fetchCategoriesFinish sc (.error e)).data = sc.data) ∧
    (∀ r, (predictFinish sp (.ok r)).data = some r ∧
      (predictFinish sp (.ok r)).loading = false ∧
      (predictFinish sp (.ok r)).error = sp.error) ∧
    (∀ e, (predictFinish sp (.error e)).error = some e ∧
      (predictFinish sp (.error e)).loading = false ∧
      (predictFinish sp (.error e)).data = sp.data) ∧
    (∀ r, (getDemoPredictFinish sd (.ok r)).data = some r ∧
      (getDemoPredictFinish sd (.ok r)).loading = false ∧
      (getDemoPredictFinish sd (.ok r)).error = sd.error) ∧
    (∀ e, (getDemoPredictFinish sd (.error e)).error = some e ∧
      (getDemoPredictFinish sd (.error e)).loading = false ∧
      (getDemoPredictFinish sd (.error e)).data = sd.data) :=
  ⟨⟨rfl, rfl, rfl⟩, ⟨rfl, rfl, rfl⟩, ⟨rfl, rfl, rfl⟩, ⟨rfl, rfl, rfl⟩,
    fun _ => ⟨rfl, rfl, rfl⟩, fun _ => ⟨rfl, rfl, rfl⟩,
    fun _ => ⟨rfl, rfl, rfl⟩, fun _ => ⟨rfl, rfl, rfl⟩,
    fun _ => ⟨rfl, rfl, rfl⟩, fun _ => ⟨rfl, rfl, rfl⟩,
    fun _ => ⟨rfl, rfl, rfl⟩, fun _ => ⟨rfl, rfl, rfl⟩⟩

/-- Claim C8. The two pages' `getRiskColor` functions agree on every level
string, and the mapping is exactly LOW to green tones, MEDIUM to yellow
tones, HIGH to orange tones, CRITICAL to red tones, and any other string to
gray tones. -/
theorem getRiskColor_same_and_exact (l : String) :
    getRiskColorSimple l = getRiskColorPermissions l ∧
    getRiskColorSimple "LOW" = "text-green-600 bg-green-100" ∧
    getRiskColorSimple "MEDIUM" = "text-yellow-600 bg-yellow-100" ∧
    getRiskColorSimple "HIGH" = "text-orange-600 bg-orange-100" ∧
    getRiskColorSimple "CRITICAL" = "text-red-600 bg-red-100" ∧
    (l ≠ "LOW" → l ≠ "MEDIUM" → l ≠ "HIGH" → l ≠ "CRITICAL" →
      getRiskColorSimple l = "text-gray-600 bg-gray-100") := by
  refine ⟨rfl, by decide, by decide, by decide, by decide, ?_⟩
  intro h1 h2 h3 h4
  simp [getRiskColorSimple, h1, h2, h3, h4]

/-- Witness for C8 at an unrecognized level string. -/
theorem getRiskColor_same_and_exact_witness :
    getRiskColorSimple "PURPLE" = getRiskColorPermissions "PURPLE" ∧
    getRiskColorSimple "PURPLE" = "text-gray-600 bg-gray-100" :=
  ⟨(getRiskColor_same_and_exact "PURPLE").1,
    (getRiskColor_same_and_exact "PURPLE").2.2.2.2.2
      (by decide) (by decide) (by decide) (by decide)⟩

/-- Claim C9, counterexample. The claim says "Check Another App" clears both the
input and the displayed result; the handler runs only `setAppInput('')`, so
a displayed prediction survives the action. -/
theorem checkAnotherApp_keeps_prediction :
    (checkAnotherApp { appInput := "Facebook", prediction := some samplePrediction }).prediction
      ≠ none := by
  decide

/-- Claim C9, amended. The "Check Another App" quick action clears the
application-name input and leaves the displayed prediction result unchanged
(it is replaced only by the next prediction). -/
theorem checkAnotherApp_clears_input_only (s : SimpleCheckerState) :
    (checkAnotherApp s).appInput = "" ∧ (checkAnotherApp s).prediction = s.prediction :=
  ⟨rfl, rfl⟩

/-- Toggling index `i` leaves every entry at another index unchanged. -/
theorem togglePermission_getD_ne (ps : List Permission) (i j : Nat) (h : j ≠ i) :
    (togglePermission i ps).getD j dummyPermission = ps.getD j dummyPermission := by
  induction ps generalizing i j with
  | nil => cases i <;> rfl
  | cons p tl ih =>
    cases i with
    | zero =>
      cases j with
      | zero => exact absurd rfl h
      | succ j => rfl
    | succ i =>
      cases j with
      | zero => rfl
      | succ j =>
        have hj : j ≠ i := fun he => h (by rw [he])
        simpa [togglePermission] using ih i j hj

/-- Toggling index `i` flips exactly the `enabled` flag of the entry at
`i`, keeping its other fields. -/
theorem togglePermission_getD_eq (ps : List Permission) (i : Nat) (h : i < ps.length) :
    (togglePermission i ps).getD i dummyPermission =
      { ps.getD i dummyPermission with
          enabled := !(ps.getD i dummyPermission).enabled } := by
  induction ps generalizing i with
  | nil => simp at h
  | cons p tl ih =>
    cases i with
    | zero => rfl
    | succ i =>
      have hi : i < tl.length := by simpa using h
      simpa [togglePermission] using ih i hi

/-- Claim C7. Toggling the permission at index `i` flips only that entry's
`enabled` flag and none of its other fields; submitting afterward builds an
`AppData` that maps each toggle's enabled state to 1/0 — so the toggled
field is 1 (0 when the toggled entry is the default-on `perm_network` at
index 8), every untouched defaulted-off field is 0, `perm_network` is 1
unless explicitly toggled off — with `perm_other` fixed to 0; and submitting
with an app name that is empty after trimming issues no request. -/
theorem permissionsChecker_toggle_submit (i : Nat) (hi : i < 12)
    (appName category : String) (isFree hasAds hasIAP isGame isSocial : Bool)
    (hname : jsTrim appName ≠ "") :
    (∀ (ps : List Permission) (j : Nat), j ≠ i →
      (togglePermission i ps).getD j dummyPermission = ps.getD j dummyPermission) ∧
    (∀ ps : List Permission, i < ps.length →
      (togglePermission i ps).getD i dummyPermission =
        { ps.getD i dummyPermission with
            enabled := !(ps.getD i dummyPermission).enabled }) ∧
    (∀ (nm : String) (ps : List Permission), jsTrim nm = "" →
      handleCalculateRisk nm category isFree hasAds hasIAP isGame isSocial ps = none) ∧
    (handleCalculateRisk appName category isFree hasAds hasIAP isGame isSocial
        (togglePermission i initialPermissions) =
      some (builtAppData appName category isFree hasAds hasIAP isGame isSocial
        (togglePermission i initialPermissions))) ∧
    ((builtAppData appName category isFree hasAds hasIAP isGame isSocial
        (togglePermission i initialPermissions)).perm_other = 0) ∧
    (∀ j, j < 12 →
      permKeyGet
          (builtAppData appName category isFree hasAds hasIAP isGame isSocial
            (togglePermission i initialPermissions))
          ((initialPermissions.getD j dummyPermission).key) =
        if j = i then (if i = 8 then 0 else 1) else (if j = 8 then 1 else 0)) := by
  refine ⟨fun ps j h => togglePermission_getD_ne ps i j h,
    fun ps h => togglePermission_getD_eq ps i h, ?_, ?_, rfl, ?_⟩
  · intro nm ps h
    simp [handleCalculateRisk, h]
  · simp [handleCalculateRisk, hname]
  · intro j hj
    interval_cases i <;> interval_cases j <;> rfl

/-- Witness for C7: toggling index 0 (Location) then submitting. -/
theorem permissionsChecker_toggle_submit_witness :
    jsTrim "MyApp" ≠ "" ∧
    permKeyGet
        (builtAppData "MyApp" "Social" true false false false false
          (togglePermission 0 initialPermissions))
        ((initialPermissions.getD 0 dummyPermission).key) = 1 :=
  ⟨by decide,
    by
      have h := (permissionsChecker_toggle_submit 0 (by decide) "MyApp" "Social"
        true false false false false (by decide)).2.2.2.2.2 0 (by decide)
      simpa using h⟩

/-- A permission value above 50 is out of range for every permission field,
so `validateForm` on such a form reports at least one error. -/
theorem validateFormErrors_flags_over (d : AppData) (f : PermField)
    (hv : permGet d f > 50) : validateFormErrors d ≠ [] := by
  intro hnil
  simp only [validateFormErrors, List.append_eq_nil, ite_eq_right_iff,
    List.cons_ne_nil, imp_false, and_assoc] at hnil
  obtain ⟨-, -, n1, n2, n3, n4, n5, n6, n7, n8, n9, n10, n11, n12, n13⟩ := hnil
  cases f <;> simp only [permGet] at hv <;> omega

/-- Claim C10. The derived `isValid` is computed only from the stored errors
record plus non-emptiness of the trimmed `app_name` and of `category` — it
does not re-check the permission ranges. Starting from a form with no stored
errors (as before any `validateForm` run, or after a passing one) and
non-empty name and category, writing any value `v` — in particular an
out-of-range one — into any permission field leaves `isValid` truthy, even
though `validateForm` would reject the form for `v > 50`. -/
theorem isValid_ignores_ranges (st : FormState) (f : PermField) (v : Int)
    (herr : st.errors = [])
    (hname : jsTrim st.formData.app_name ≠ "")
    (hcat : st.formData.category ≠ "") :
    isValid (updatePermField st f v).errors (updatePermField st f v).formData = true ∧
    permGet (updatePermField st f v).formData f = v ∧
    (v > 50 → validateForm (updatePermField st f v).formData = false) := by
  have hn : (permSet st.formData f v).app_name = st.formData.app_name := by
    cases f <;> rfl
  have hc : (permSet st.formData f v).category = st.formData.category := by
    cases f <;> rfl
  have hg : permGet (permSet st.formData f v) f = v := by
    cases f <;> rfl
  refine ⟨?_, ?_, ?_⟩
  · simp [isValid, updatePermField, herr, hn, hc, hname, hcat, List.lookup]
  · simpa [updatePermField] using hg
  · intro hv
    have hne : validateFormErrors (permSet st.formData f v) ≠ [] :=
      validateFormErrors_flags_over _ f (by rw [hg]; omega)
    simp [validateForm, updatePermField, hne]

/-- Witness for C10: an in-range form, `perm_location` set to 51. -/
theorem isValid_ignores_ranges_witness :
    isValid (updatePermField { formData := validBase, errors := [] } .location 51).errors
        (updatePermField { formData := validBase, errors := [] } .location 51).formData
      = true ∧
    validateForm
        (updatePermField { formData := validBase, errors := [] } .location 51).formData
      = false :=
  ⟨(isValid_ignores_ranges { formData := validBase, errors := [] } .location 51
      rfl (by decide) (by decide)).1,
    (isValid_ignores_ranges { formData := validBase, errors := [] } .location 51
      rfl (by decide) (by decide)).2.2 (by decide)⟩

end ScoreAtelier
